import Mathlib

/-!
Verification development for the text-analyzer service (src/app/main.py).

The service exposes a strict FastAPI handler `analyze_text` (POST /analyze)
and a lenient Flask handler `analyze` (kept in the source as a commented
variant).  We embed the string operations (Python `str.split()` with no
separator, `len` on code points), the pydantic validation boundary, the
guard clauses, the try/except boundary and the `datetime.utcnow().isoformat()
+ "Z"` timestamp construction, and prove the spec's claims about them.
-/

/-- Whitespace test used by Python `str.split()` with no separator
(`Py_UNICODE_ISSPACE`): ASCII whitespace 0x09–0x0D and 0x20, the
separators 0x1C–0x1F, and the Unicode space code points. -/
def isPySpace (c : Char) : Bool :=
  let n := c.toNat
  (0x09 ≤ n && n ≤ 0x0D) || n == 0x20 || (0x1C ≤ n && n ≤ 0x1F) ||
  n == 0x85 || n == 0xA0 || n == 0x1680 || (0x2000 ≤ n && n ≤ 0x200A) ||
  n == 0x2028 || n == 0x2029 || n == 0x202F || n == 0x205F || n == 0x3000

/-- Accumulator version of Python `str.split()` with no separator:
`acc` holds the (reversed) characters of the token currently being read. -/
def pySplitAux : List Char → List Char → List (List Char)
  | acc, [] => if acc.isEmpty then [] else [acc.reverse]
  | acc, c :: cs =>
    if isPySpace c then
      if acc.isEmpty then pySplitAux [] cs else acc.reverse :: pySplitAux [] cs
    else pySplitAux (c :: acc) cs

/-- Python `text.split()` (no separator): split on runs of whitespace and
discard empty fragments, yielding the maximal non-whitespace runs. -/
def pySplit (cs : List Char) : List (List Char) := pySplitAux [] cs

/-- Counter for the number of maximal non-whitespace runs; the flag records
whether the previous character was part of a run. -/
def countRunsAux : Bool → List Char → Nat
  | _, [] => 0
  | inRun, c :: cs =>
    if isPySpace c then countRunsAux false cs
    else (if inRun then 0 else 1) + countRunsAux true cs

/-- The number of maximal non-whitespace runs of a string. -/
def countRuns (cs : List Char) : Nat := countRunsAux false cs

/-- Strict handler's word count, src/app/main.py line 62:
`word_count = len(request.text.split())`. -/
def strict_word_count (text : String) : Nat := (pySplit text.data).length

/-- Lenient handler's word count, src/app/main.py line 97:
`word_count = len([w for w in text.split() if w])` (a fragment is kept when
it is truthy, i.e. non-empty). -/
def lenient_word_count (text : String) : Nat :=
  ((pySplit text.data).filter (fun w => !w.isEmpty)).length

theorem pySplitAux_length (cs : List Char) :
    ∀ acc, (pySplitAux acc cs).length =
      (if acc.isEmpty then 0 else 1) + countRunsAux (!acc.isEmpty) cs := by
  induction cs with
  | nil =>
    intro acc
    by_cases h : acc.isEmpty <;> simp [pySplitAux, countRunsAux, h]
  | cons c cs ih =>
    intro acc
    by_cases hsp : isPySpace c
    · by_cases h : acc.isEmpty
      · simp [pySplitAux, countRunsAux, hsp, h, ih]
      · simp [pySplitAux, countRunsAux, hsp, h, ih]
        omega
    · by_cases h : acc.isEmpty
      · simp [pySplitAux, countRunsAux, hsp, h, ih]
      · simp [pySplitAux, countRunsAux, hsp, h, ih]

/-- The length of Python's `split()` result is the number of maximal
non-whitespace runs. -/
theorem pySplit_length (cs : List Char) : (pySplit cs).length = countRuns cs := by
  simpa [pySplit, countRuns] using pySplitAux_length cs []

theorem countRunsAux_le (cs : List Char) : ∀ b, countRunsAux b cs ≤ cs.length := by
  induction cs with
  | nil => intro b; simp [countRunsAux]
  | cons c cs ih =>
    intro b
    by_cases hsp : isPySpace c
    · simp only [countRunsAux, hsp, if_true, List.length_cons]
      exact Nat.le_succ_of_le (ih false)
    · simp only [countRunsAux, hsp, if_false, List.length_cons]
      have := ih true
      by_cases hb : b <;> simp [hb] <;> omega

/-- A string never has more whitespace-separated tokens than characters. -/
theorem countRuns_le (cs : List Char) : countRuns cs ≤ cs.length :=
  countRunsAux_le cs false

theorem pySplitAux_ne_nil (cs : List Char) :
    ∀ acc w, w ∈ pySplitAux acc cs → w ≠ [] := by
  induction cs with
  | nil =>
    intro acc w hw
    by_cases h : acc.isEmpty
    · simp [pySplitAux, h] at hw
    · simp [pySplitAux, h] at hw
      subst hw
      simpa [List.isEmpty_iff] using h
  | cons c cs ih =>
    intro acc w hw
    by_cases hsp : isPySpace c
    · by_cases h : acc.isEmpty
      · exact ih [] w (by simpa [pySplitAux, hsp, h] using hw)
      · simp [pySplitAux, hsp, h] at hw
        rcases hw with rfl | hw
        · simpa [List.isEmpty_iff] using h
        · exact ih [] w hw
    · exact ih (c :: acc) w (by simpa [pySplitAux, hsp] using hw)

/-- Every fragment produced by `split()` is non-empty. -/
theorem pySplit_ne_nil (cs : List Char) (w : List Char) (hw : w ∈ pySplit cs) :
    w ≠ [] := pySplitAux_ne_nil cs [] w hw

/-! ### Datetime and `isoformat` (Python `datetime.utcnow().isoformat() + "Z"`) -/

/-- A Python `datetime` value (naive, as returned by `datetime.utcnow()`). -/
structure PyDatetime where
  year : Nat
  month : Nat
  day : Nat
  hour : Nat
  minute : Nat
  second : Nat
  microsecond : Nat
  deriving DecidableEq, Repr

/-- Gregorian leap-year test, as in Python's `calendar.isleap`. -/
def isLeap (y : Nat) : Bool := (y % 4 == 0 && y % 100 != 0) || y % 400 == 0

/-- Days in a month, as enforced by the `datetime` constructor. -/
def daysInMonth (y m : Nat) : Nat :=
  if m = 2 then (if isLeap y then 29 else 28)
  else if m = 4 ∨ m = 6 ∨ m = 9 ∨ m = 11 then 30
  else 31

/-- The field ranges the Python `datetime` constructor enforces; every value
`datetime.utcnow()` returns satisfies them. -/
def PyDatetime.Valid (d : PyDatetime) : Prop :=
  1 ≤ d.year ∧ d.year ≤ 9999 ∧ 1 ≤ d.month ∧ d.month ≤ 12 ∧
  1 ≤ d.day ∧ d.day ≤ daysInMonth d.year d.month ∧
  d.hour ≤ 23 ∧ d.minute ≤ 59 ∧ d.second ≤ 59 ∧ d.microsecond ≤ 999999

instance (d : PyDatetime) : Decidable d.Valid := by
  unfold PyDatetime.Valid; infer_instance

/-- The decimal digit character for `n < 10`. -/
def pyDigit (n : Nat) : Char := Char.ofNat (48 + n)

/-- Two-digit zero-padded decimal rendering (`%02d`) for `n < 100`. -/
def pad2 (n : Nat) : List Char := [pyDigit (n / 10), pyDigit (n % 10)]

/-- Four-digit zero-padded decimal rendering (`%04d`) for `n < 10000`. -/
def pad4 (n : Nat) : List Char := pad2 (n / 100) ++ pad2 (n % 100)

/-- Six-digit zero-padded decimal rendering (`%06d`) for `n < 1000000`. -/
def pad6 (n : Nat) : List Char := pad4 (n / 100) ++ pad2 (n % 100)

/-- The characters of `d.isoformat()`: `YYYY-MM-DDTHH:MM:SS`, followed by
`.ffffff` exactly when the microsecond field is non-zero. -/
def isoChars (d : PyDatetime) : List Char :=
  pad4 d.year ++ '-' :: (pad2 d.month ++ '-' :: (pad2 d.day ++ 'T' ::
    (pad2 d.hour ++ ':' :: (pad2 d.minute ++ ':' :: (pad2 d.second ++
      (if d.microsecond = 0 then [] else '.' :: pad6 d.microsecond))))))

/-- Python `d.isoformat()` as a string. -/
def pyIsoformat (d : PyDatetime) : String := String.mk (isoChars d)

/-! ### ISO-8601 UTC parsing (modelling `datetime.fromisoformat` on a
`Z`-terminated timestamp, as the test-suite applies it) -/

/-- Decimal value of a digit character, `none` on a non-digit. -/
def readDigit (c : Char) : Option Nat :=
  if '0' ≤ c ∧ c ≤ '9' then some (c.toNat - 48) else none

/-- Consume exactly two digit characters. -/
def read2 : List Char → Option (Nat × List Char)
  | c1 :: c2 :: rest =>
    match readDigit c1, readDigit c2 with
    | some d1, some d2 => some (d1 * 10 + d2, rest)
    | _, _ => none
  | _ => none

/-- Consume exactly four digit characters. -/
def read4 (cs : List Char) : Option (Nat × List Char) :=
  match read2 cs with
  | some (a, r) =>
    match read2 r with
    | some (b, r2) => some (a * 100 + b, r2)
    | none => none
  | none => none

/-- Consume exactly six digit characters. -/
def read6 (cs : List Char) : Option (Nat × List Char) :=
  match read4 cs with
  | some (a, r) =>
    match read2 r with
    | some (b, r2) => some (a * 100 + b, r2)
    | none => none
  | none => none

/-- Consume one expected character. -/
def expectChar (ch : Char) : List Char → Option (List Char)
  | [] => none
  | c :: cs => if c = ch then some cs else none

/-- Consume an optional fractional-seconds part `.ffffff`. -/
def parseFrac : List Char → Option (List Char)
  | [] => some []
  | c :: cs =>
    if c = '.' then
      match read6 cs with
      | some (_, r) => some r
      | none => none
    else some (c :: cs)

/-- Parse `YYYY-MM-DD(T)HH:MM:SS(.ffffff)?Z` and return the six fields. -/
def parseIsoUTC (cs : List Char) : Option (Nat × Nat × Nat × Nat × Nat × Nat) :=
  match read4 cs with
  | none => none
  | some (y, r1) =>
  match expectChar '-' r1 with
  | none => none
  | some r2 =>
  match read2 r2 with
  | none => none
  | some (mo, r3) =>
  match expectChar '-' r3 with
  | none => none
  | some r4 =>
  match read2 r4 with
  | none => none
  | some (d, r5) =>
  match expectChar 'T' r5 with
  | none => none
  | some r6 =>
  match read2 r6 with
  | none => none
  | some (h, r7) =>
  match expectChar ':' r7 with
  | none => none
  | some r8 =>
  match read2 r8 with
  | none => none
  | some (mi, r9) =>
  match expectChar ':' r9 with
  | none => none
  | some r10 =>
  match read2 r10 with
  | none => none
  | some (s, r11) =>
  match parseFrac r11 with
  | none => none
  | some r12 =>
  match expectChar 'Z' r12 with
  | none => none
  | some r13 =>
  match r13 with
  | [] => some (y, mo, d, h, mi, s)
  | _ => none

/-- A string is a valid ISO-8601 UTC instant (with trailing `Z`) when it
parses and every field is in range. -/
def isIso8601UTC (cs : List Char) : Bool :=
  match parseIsoUTC cs with
  | none => false
  | some (y, mo, d, h, mi, s) =>
    decide (1 ≤ y ∧ 1 ≤ mo ∧ mo ≤ 12 ∧ 1 ≤ d ∧ d ≤ daysInMonth y mo ∧
      h ≤ 23 ∧ mi ≤ 59 ∧ s ≤ 59)

theorem readDigit_pyDigit (n : Nat) (h : n < 10) : readDigit (pyDigit n) = some n := by
  interval_cases n <;> decide

theorem read2_pad2 (n : Nat) (rest : List Char) (h : n < 100) :
    read2 (pad2 n ++ rest) = some (n, rest) := by
  have h1 : n / 10 < 10 := by omega
  have h2 : n % 10 < 10 := by omega
  simp only [pad2, List.cons_append, List.nil_append, read2,
    readDigit_pyDigit _ h1, readDigit_pyDigit _ h2]
  have : n / 10 * 10 + n % 10 = n := by omega
  rw [this]

theorem read4_pad4 (n : Nat) (rest : List Char) (h : n < 10000) :
    read4 (pad4 n ++ rest) = some (n, rest) := by
  have h1 : n / 100 < 100 := by omega
  have h2 : n % 100 < 100 := by omega
  have e : n / 100 * 100 + n % 100 = n := by omega
  simp only [pad4, List.append_assoc, read4, read2_pad2, h1, h2, e]

theorem read6_pad6 (n : Nat) (rest : List Char) (h : n < 1000000) :
    read6 (pad6 n ++ rest) = some (n, rest) := by
  have h1 : n / 100 < 10000 := by omega
  have h2 : n % 100 < 100 := by omega
  have e : n / 100 * 100 + n % 100 = n := by omega
  simp only [pad6, List.append_assoc, read6, read4_pad4, read2_pad2, h1, h2, e]

theorem expectChar_cons (ch : Char) (rest : List Char) :
    expectChar ch (ch :: rest) = some rest := by
  simp [expectChar]

theorem parseFrac_noDot (c : Char) (cs : List Char) (h : c ≠ '.') :
    parseFrac (c :: cs) = some (c :: cs) := by
  simp [parseFrac, h]

theorem parseFrac_dot (n : Nat) (rest : List Char) (h : n < 1000000) :
    parseFrac ('.' :: (pad6 n ++ rest)) = some rest := by
  simp [parseFrac, read6_pad6, h]

theorem parseFrac_Z : parseFrac ['Z'] = some ['Z'] := rfl

/-- The formatted timestamp of a valid datetime parses back to its fields. -/
theorem parseIsoUTC_isoChars (dt : PyDatetime) (h : dt.Valid) :
    parseIsoUTC (isoChars dt ++ ['Z']) =
      some (dt.year, dt.month, dt.day, dt.hour, dt.minute, dt.second) := by
  obtain ⟨hy1, hy2, hm1, hm2, hd1, hd2, hh, hmi, hs, hus⟩ := h
  have hy : dt.year < 10000 := by omega
  have hmo : dt.month < 100 := by omega
  have hd : dt.day < 100 := by
    have : daysInMonth dt.year dt.month ≤ 31 := by
      unfold daysInMonth; split <;> (try split) <;> omega
    omega
  have hh2 : dt.hour < 100 := by omega
  have hmi2 : dt.minute < 100 := by omega
  have hs2 : dt.second < 100 := by omega
  have hus2 : dt.microsecond < 1000000 := by omega
  by_cases hus0 : dt.microsecond = 0
  · simp only [isoChars, hus0, if_true, if_false, eq_self_iff_true,
      List.append_assoc, List.cons_append, List.nil_append, parseIsoUTC,
      read4_pad4, hy, expectChar_cons, read2_pad2, hmo, hd, hh2, hmi2, hs2,
      parseFrac_Z]
  · simp only [isoChars, hus0, if_true, if_false, eq_self_iff_true,
      List.append_assoc, List.cons_append, List.nil_append, parseIsoUTC,
      read4_pad4, hy, expectChar_cons, read2_pad2, hmo, hd, hh2, hmi2, hs2,
      parseFrac_dot, hus2]

/-! ### The strict FastAPI handler (src/app/main.py, `analyze_text`) -/

/-- The success body built by the handler (pydantic model `TextResponse`). -/
structure TextResponse where
  original_text : String
  word_count : Nat
  character_count : Nat
  analysis_timestamp : String
  deriving DecidableEq, Repr

/-- A Python exception escaping the handler body: either a deliberate
`HTTPException(status_code, detail)` or any other exception. -/
inductive PyExc where
  | httpError (status : Nat) (detail : String)
  | other (msg : String)
  deriving DecidableEq, Repr

/-- The HTTP outcome of POST /analyze: a 200 body, an `HTTPException`
turned into a status/detail error, or the framework's 422 validation
rejection (whose structured detail we do not model further). -/
inductive AnalyzeResponse where
  | ok (r : TextResponse)
  | err (status : Nat) (detail : String)
  | invalid
  deriving DecidableEq, Repr

/-- The body of the `try:` block of `analyze_text`, given the validated
`text` and the value `now` that `datetime.utcnow()` returns:
guard on empty text, guard on length > 10000, then build the response.
All operations used (`split`, `len`, `isoformat`) are total, so the body
never raises anything but the two `HTTPException`s. -/
def analyze_body (text : String) (now : PyDatetime) : Except PyExc TextResponse :=
  if text = "" then
    Except.error (PyExc.httpError 400 "Text cannot be empty")
  else if text.length > 10000 then
    Except.error (PyExc.httpError 400 "Text too long (max 10,000 characters)")
  else
    Except.ok
      { original_text := text
        word_count := strict_word_count text
        character_count := text.length
        analysis_timestamp := pyIsoformat now ++ "Z" }

/-- The `except` clauses of `analyze_text`: an `HTTPException` is re-raised
as is; any other exception becomes a 500 with the fixed generic detail. -/
def handleExceptions (body : Except PyExc TextResponse) : AnalyzeResponse :=
  match body with
  | Except.ok r => AnalyzeResponse.ok r
  | Except.error (PyExc.httpError s d) => AnalyzeResponse.err s d
  | Except.error (PyExc.other _) => AnalyzeResponse.err 500 "Internal server error"

/-- The strict handler `analyze_text` on a validated request. -/
def analyze_text (text : String) (now : PyDatetime) : AnalyzeResponse :=
  handleExceptions (analyze_body text now)

/-- A JSON value, as far as the `text` field of the request body is
concerned. -/
inductive JsonValue where
  | jstr (s : String)
  | jnum (n : Int)
  | jbool (b : Bool)
  | jnull
  deriving DecidableEq, Repr

/-- The pydantic model `TextRequest` (`text: str`): the field must be
present and be a string, otherwise FastAPI rejects the request with 422
before the handler runs. -/
def validateTextRequest (body : List (String × JsonValue)) : Option String :=
  match body.lookup "text" with
  | some (JsonValue.jstr s) => some s
  | _ => none

/-- POST /analyze end to end: framework validation, then the handler. -/
def postAnalyze (body : List (String × JsonValue)) (now : PyDatetime) :
    AnalyzeResponse :=
  match validateTextRequest body with
  | none => AnalyzeResponse.invalid
  | some text => analyze_text text now

/-- The guarded success path of the handler, shared by several claims. -/
theorem analyze_text_ok (text : String) (now : PyDatetime)
    (hne : text ≠ "") (hlen : text.length ≤ 10000) :
    analyze_text text now = AnalyzeResponse.ok
      { original_text := text
        word_count := strict_word_count text
        character_count := text.length
        analysis_timestamp := pyIsoformat now ++ "Z" } := by
  simp [analyze_text, analyze_body, handleExceptions, hne,
    Nat.not_lt.mpr hlen]

/-- A sample instant, used to instantiate theorems at concrete inputs. -/
def dt0 : PyDatetime := ⟨2024, 1, 1, 0, 0, 0, 0⟩

/-- Claim C1: for every non-empty string of at most 10,000 code points,
POST /analyze succeeds and returns the code-point count as
`character_count`, the number of maximal non-whitespace runs as
`word_count`, and the input verbatim as `original_text`. -/
theorem C1_analyze_success (s : String) (now : PyDatetime)
    (hne : s ≠ "") (hlen : s.length ≤ 10000) :
    analyze_text s now = AnalyzeResponse.ok
      { original_text := s
        word_count := countRuns s.data
        character_count := s.length
        analysis_timestamp := pyIsoformat now ++ "Z" } := by
  rw [analyze_text_ok s now hne hlen]
  simp [strict_word_count, pySplit_length]

theorem C1_analyze_success_witness :
    analyze_text "hello world" dt0 = AnalyzeResponse.ok
      { original_text := "hello world"
        word_count := countRuns "hello world".data
        character_count := "hello world".length
        analysis_timestamp := pyIsoformat dt0 ++ "Z" } :=
  C1_analyze_success "hello world" dt0 (by decide) (by decide)

/-- Claim C2: a string longer than 10,000 characters is rejected with a
400 whose detail is "Text too long (max 10,000 characters)", while a
string of exactly 10,000 characters is accepted. -/
theorem C2_length_limit (text : String) (now : PyDatetime) :
    (text.length > 10000 →
      analyze_text text now =
        AnalyzeResponse.err 400 "Text too long (max 10,000 characters)") ∧
    (text.length = 10000 →
      ∃ r, analyze_text text now = AnalyzeResponse.ok r) := by
  constructor
  · intro hl
    have hne : text ≠ "" := by
      intro e
      rw [e] at hl
      simp at hl
    simp [analyze_text, analyze_body, handleExceptions, hne, hl]
  · intro hl
    have hne : text ≠ "" := by
      intro e
      rw [e] at hl
      simp at hl
    exact ⟨_, analyze_text_ok text now hne (by omega)⟩

theorem C2_length_limit_witness :
    analyze_text (String.mk (List.replicate 10001 'a')) dt0 =
      AnalyzeResponse.err 400 "Text too long (max 10,000 characters)" ∧
    ∃ r, analyze_text (String.mk (List.replicate 10000 'a')) dt0 =
      AnalyzeResponse.ok r :=
  ⟨(C2_length_limit _ dt0).1 (by
      show (List.replicate 10001 'a').length > 10000
      rw [List.length_replicate]
      omega),
   (C2_length_limit _ dt0).2 (by
      show (List.replicate 10000 'a').length = 10000
      rw [List.length_replicate])⟩

/-- Claim C3: the empty string is rejected with a 400 whose detail is
"Text cannot be empty". -/
theorem C3_empty_rejected (now : PyDatetime) :
    analyze_text "" now = AnalyzeResponse.err 400 "Text cannot be empty" := by
  simp [analyze_text, analyze_body, handleExceptions]

/-- Claim C4: a request whose `text` field is absent or not a string is
rejected with the framework's 422 validation error, which is distinct from
the 400 business-rule errors, and the rejection does not depend on
anything the handler body would compute (here: the clock value). -/
theorem C4_validation_before_handler (body : List (String × JsonValue))
    (now : PyDatetime)
    (h : ∀ s, body.lookup "text" ≠ some (JsonValue.jstr s)) :
    postAnalyze body now = AnalyzeResponse.invalid ∧
    (∀ d, AnalyzeResponse.invalid ≠ AnalyzeResponse.err 400 d) ∧
    (∀ now2, postAnalyze body now = postAnalyze body now2) := by
  have hv : validateTextRequest body = none := by
    unfold validateTextRequest
    cases hb : body.lookup "text" with
    | none => rfl
    | some v =>
      cases v with
      | jstr s => exact absurd hb (h s)
      | jnum n => rfl
      | jbool b => rfl
      | jnull => rfl
  refine ⟨by simp [postAnalyze, hv], fun d => by simp, fun now2 => by
    simp [postAnalyze, hv]⟩

theorem C4_validation_before_handler_witness :
    postAnalyze [("text", JsonValue.jnum 123)] dt0 = AnalyzeResponse.invalid ∧
    (∀ d, AnalyzeResponse.invalid ≠ AnalyzeResponse.err 400 d) ∧
    (∀ now2, postAnalyze [("text", JsonValue.jnum 123)] dt0 =
      postAnalyze [("text", JsonValue.jnum 123)] now2) :=
  C4_validation_before_handler _ dt0 (by intro s hs; simp [List.lookup] at hs)

/-- Claim C5: any exception that is not an `HTTPException` is converted by
the handler's `except Exception` clause into a 500 with the fixed detail
"Internal server error"; the outcome is the same whatever the fault's
message was, so no detail of the fault reaches the caller. -/
theorem C5_internal_error_sanitized (msg : String) :
    handleExceptions (Except.error (PyExc.other msg)) =
      AnalyzeResponse.err 500 "Internal server error" ∧
    ∀ msg2, handleExceptions (Except.error (PyExc.other msg)) =
      handleExceptions (Except.error (PyExc.other msg2)) :=
  ⟨rfl, fun _ => rfl⟩

/-- Claim C6: whitespace-only text is not rejected as empty: three spaces
give a 200 with `word_count = 0` and `character_count = 3`. -/
theorem C6_whitespace_only (now : PyDatetime) :
    analyze_text "   " now = AnalyzeResponse.ok
      { original_text := "   "
        word_count := 0
        character_count := 3
        analysis_timestamp := pyIsoformat now ++ "Z" } := by
  rw [analyze_text_ok "   " now (by decide) (by decide)]
  rfl

/-- Claim C7: in every successful strict /analyze response (for a valid
clock value, as `datetime.utcnow()` always yields), the
`analysis_timestamp` ends with `Z` and is a valid ISO-8601 UTC instant. -/
theorem C7_timestamp_iso (text : String) (now : PyDatetime) (r : TextResponse)
    (hv : now.Valid)
    (hr : analyze_text text now = AnalyzeResponse.ok r) :
    r.analysis_timestamp.data.getLast? = some 'Z' ∧
    isIso8601UTC r.analysis_timestamp.data = true := by
  unfold analyze_text analyze_body at hr
  split_ifs at hr with h1 h2
  · simp [handleExceptions] at hr
  · simp [handleExceptions] at hr
  · simp [handleExceptions] at hr
    obtain ⟨hy1, hy2, hm1, hm2, hd1, hd2, hh, hmi, hs, hus⟩ := hv
    have e : r.analysis_timestamp.data = isoChars now ++ ['Z'] := by
      rw [← hr]
      rfl
    constructor
    · rw [e]
      exact List.getLast?_concat _
    · rw [e, isIso8601UTC,
        parseIsoUTC_isoChars now ⟨hy1, hy2, hm1, hm2, hd1, hd2, hh, hmi, hs, hus⟩]
      simp only [decide_eq_true_eq]
      exact ⟨hy1, hm1, hm2, hd1, hd2, hh, hmi, hs⟩

theorem C7_timestamp_iso_witness :
    (TextResponse.mk "hi" 1 2
        (pyIsoformat dt0 ++ "Z")).analysis_timestamp.data.getLast? = some 'Z' ∧
    isIso8601UTC (TextResponse.mk "hi" 1 2
        (pyIsoformat dt0 ++ "Z")).analysis_timestamp.data = true :=
  C7_timestamp_iso "hi" dt0 _ (by decide) (by decide)

/-- Claim C8: on every string, the lenient variant's word count (split,
then discard empty fragments) equals the strict variant's word count
(length of the split). -/
theorem C8_word_count_equiv (text : String) :
    lenient_word_count text = strict_word_count text := by
  unfold lenient_word_count strict_word_count
  rw [List.filter_eq_self.mpr]
  intro w hw
  have := pySplit_ne_nil text.data w hw
  simpa [List.isEmpty_iff] using this

/-- Claim C9: every 200 response of the strict handler has
`1 ≤ character_count ≤ 10000` and `word_count ≤ character_count`. -/
theorem C9_success_bounds (text : String) (now : PyDatetime) (r : TextResponse)
    (hr : analyze_text text now = AnalyzeResponse.ok r) :
    1 ≤ r.character_count ∧ r.character_count ≤ 10000 ∧
    r.word_count ≤ r.character_count := by
  unfold analyze_text analyze_body at hr
  split_ifs at hr with h1 h2
  · simp [handleExceptions] at hr
  · simp [handleExceptions] at hr
  · simp [handleExceptions] at hr
    have hcc : r.character_count = text.length := by rw [← hr]
    have hwc : r.word_count = strict_word_count text := by rw [← hr]
    refine ⟨?_, ?_, ?_⟩
    · rw [hcc]
      rcases text with ⟨l⟩
      cases l with
      | nil => exact absurd rfl h1
      | cons c cs => simp [String.length]
    · rw [hcc]
      omega
    · rw [hcc, hwc, strict_word_count, pySplit_length]
      exact countRuns_le text.data

theorem C9_success_bounds_witness :
    1 ≤ (TextResponse.mk "a b" 2 3 (pyIsoformat dt0 ++ "Z")).character_count ∧
    (TextResponse.mk "a b" 2 3 (pyIsoformat dt0 ++ "Z")).character_count ≤ 10000 ∧
    (TextResponse.mk "a b" 2 3 (pyIsoformat dt0 ++ "Z")).word_count ≤
      (TextResponse.mk "a b" 2 3 (pyIsoformat dt0 ++ "Z")).character_count :=
  C9_success_bounds "a b" dt0 _ (by decide)

/-- Claim C10: for a well-typed request the strict handler's 500 branch is
unreachable: the outcome is a 200, or one of the two 400s the guards
raise, and it is never a 500. -/
theorem C10_no_internal_error (text : String) (now : PyDatetime) :
    ((∃ r, analyze_text text now = AnalyzeResponse.ok r) ∨
      analyze_text text now = AnalyzeResponse.err 400 "Text cannot be empty" ∨
      analyze_text text now =
        AnalyzeResponse.err 400 "Text too long (max 10,000 characters)") ∧
    ∀ d, analyze_text text now ≠ AnalyzeResponse.err 500 d := by
  have main : (∃ r, analyze_text text now = AnalyzeResponse.ok r) ∨
      analyze_text text now = AnalyzeResponse.err 400 "Text cannot be empty" ∨
      analyze_text text now =
        AnalyzeResponse.err 400 "Text too long (max 10,000 characters)" := by
    by_cases h1 : text = ""
    · rw [h1]
      right
      left
      simp [analyze_text, analyze_body, handleExceptions]
    · by_cases h2 : text.length > 10000
      · right
        right
        simp [analyze_text, analyze_body, handleExceptions, h1, h2]
      · left
        exact ⟨_, analyze_text_ok text now h1 (by omega)⟩
  refine ⟨main, fun d hd => ?_⟩
  rcases main with ⟨r, hr⟩ | hr | hr <;> rw [hd] at hr <;> simp at hr
